import Mathlib

/-!
Verification of the dependency-graph construction core of the toy-farm
bundler (crates/compiler/src/build/mod.rs).

The Rust orchestrator is shallowly embedded: each `async fn` becomes a pure
Lean function over an explicit state; external collaborators (resolver,
loader, transformer, parser, post-parse processor, timestamp and hash
providers) are fields of an `Env` record, matching their interface contracts;
the module cache is an explicit association list; the error channel is a list
of collected errors; the spawned child tasks of the fan-out step are executed
sequentially in declaration order (every interleaving of the graph-mutating
critical sections is a sequence of those atomic sections, so the sequential
model covers them, and the race lemmas quantify over both orders).

Definitions translated from files of the repository outside the provided
build module (module graph, module record, cache gateway helpers, query
stringification) carry a doc comment starting `Modelled from the spec:`.
-/

namespace ToyFarm

/-- Modelled from the spec: stable module identity computed from the
resolved path plus the canonicalized (stringified) query. -/
structure ModuleId where
  resolvedPath : String
  query : String
deriving DecidableEq, Repr

/-- Modelled from the spec: stable stringification of a module identity
(resolved path followed by the canonical query string). -/
def ModuleId.toStr (id : ModuleId) : String :=
  id.resolvedPath ++ id.query

/-- Modelled from the spec: canonical stringification of query parameters. -/
def stringify_query (query : List (String × String)) : String :=
  String.intercalate "&" (query.map (fun kv => kv.1 ++ "=" ++ kv.2))

/-- Modelled from the spec: `ModuleId::new(resolved_path, query_string)`. -/
def ModuleId.new (resolvedPath : String) (query : String) : ModuleId :=
  { resolvedPath := resolvedPath, query := query }

/-- Resolve kinds: a named entry, a static import, or a dynamic import. -/
inductive ResolveKind where
  | entry (name : String)
  | staticImport
  | dynamicImport
deriving DecidableEq, Repr

/-- Modelled from the spec: a module node. Fields follow the spec's data
model: content, content hash, last-update timestamp, module kind tag, byte
size, external / immutable / side-effect flags, source-map chain, and the
metadata produced by parsing. -/
structure Module where
  id : ModuleId
  content : String
  contentHash : String
  lastUpdateTimestamp : Nat
  moduleType : String
  size : Nat
  external : Bool
  immutable : Bool
  sideEffects : Bool
  sourceMapChain : List String
  meta : String
deriving DecidableEq, Repr

/-- Modelled from the spec: `Module::new(id)`, a bare placeholder holding
only its identity, with every other field at its default. -/
def Module.new (id : ModuleId) : Module :=
  { id := id
    content := ""
    contentHash := ""
    lastUpdateTimestamp := 0
    moduleType := ""
    size := 0
    external := false
    immutable := false
    sideEffects := false
    sourceMapChain := []
    meta := "" }

/-- One recorded import relationship: literal source text, resolve kind, and
the ordinal position among the importer's imports. -/
structure ModuleGraphEdgeDataItem where
  source : String
  kind : ResolveKind
  order : Nat
deriving DecidableEq, Repr

/-- Modelled from the spec: the shared module graph — module nodes, the
multi-edge mapping from (importer, dependency) to its ordered edge items, and
the entry-name bindings. -/
structure ModuleGraph where
  modules : List Module
  edges : List ((ModuleId × ModuleId) × List ModuleGraphEdgeDataItem)
  entries : List (ModuleId × String)
deriving DecidableEq, Repr

/-- The empty graph. -/
def ModuleGraph.empty : ModuleGraph :=
  { modules := [], edges := [], entries := [] }

/-- Modelled from the spec: `has_module(id)` — read-only membership check. -/
def ModuleGraph.has_module (g : ModuleGraph) (id : ModuleId) : Bool :=
  g.modules.any (fun m => decide (m.id = id))

/-- Modelled from the spec: `get(id)` — read-only node access. -/
def ModuleGraph.get (g : ModuleGraph) (id : ModuleId) : Option Module :=
  g.modules.find? (fun m => decide (m.id = id))

/-- Modelled from the spec: `add_module(module)` — inserts a new node. -/
def ModuleGraph.add_module (g : ModuleGraph) (m : Module) : ModuleGraph :=
  { g with modules := g.modules ++ [m] }

/-- Modelled from the spec: `replace_module(module)` — wholesale overwrite of
an existing node's data, leaving every other node and all edges intact. -/
def ModuleGraph.replace_module (g : ModuleGraph) (m : Module) : ModuleGraph :=
  { g with modules := g.modules.map (fun m0 => if m0.id = m.id then m else m0) }

/-- Append an item to the (importer, dependency) edge, creating the edge if
it is absent. -/
def upsertEdge (edges : List ((ModuleId × ModuleId) × List ModuleGraphEdgeDataItem))
    (importer dep : ModuleId) (item : ModuleGraphEdgeDataItem) :
    List ((ModuleId × ModuleId) × List ModuleGraphEdgeDataItem) :=
  if edges.any (fun e => decide (e.1 = (importer, dep))) then
    edges.map (fun e => if e.1 = (importer, dep) then (e.1, e.2 ++ [item]) else e)
  else
    edges ++ [((importer, dep), [item])]

/-- Modelled from the spec: `add_edge_item(importer, dependency, item)` —
requires both endpoints to be present already (`none` models the fatal
internal-consistency failure otherwise); appends the item to the edge's item
collection, creating the edge if absent. -/
def ModuleGraph.add_edge_item (g : ModuleGraph) (importer dep : ModuleId)
    (item : ModuleGraphEdgeDataItem) : Option ModuleGraph :=
  if g.has_module importer && g.has_module dep then
    some { g with edges := upsertEdge g.edges importer dep item }
  else
    none

/-- The ordered items recorded on the (importer, dependency) edge. -/
def ModuleGraph.edgeItems (g : ModuleGraph) (importer dep : ModuleId) :
    List ModuleGraphEdgeDataItem :=
  match g.edges.find? (fun e => decide (e.1 = (importer, dep))) with
  | some e => e.2
  | none => []

/-- Entry-name binding insertion (map semantics: overwrite or append). -/
def insertEntry (entries : List (ModuleId × String)) (id : ModuleId)
    (name : String) : List (ModuleId × String) :=
  if entries.any (fun e => decide (e.1 = id)) then
    entries.map (fun e => if e.1 = id then (e.1, name) else e)
  else
    entries ++ [(id, name)]

/-- Number of nodes carrying a given identity (1 everywhere the claim
discipline is respected). -/
def ModuleGraph.countModules (g : ModuleGraph) (id : ModuleId) : Nat :=
  (g.modules.filter (fun m => decide (m.id = id))).length

/-- The compilation error taxonomy relevant to the build module (payloads of
the wrapped source errors are elided to the resolved path). -/
inductive CompilationError where
  | genericError (msg : String)
  | loadError (resolvedPath : String)
  | transformError (resolvedPath : String)
  | parseError (resolvedPath : String)
  | processModuleError (resolvedPath : String)
deriving DecidableEq, Repr

/-- `PluginResolveHookParam`: source specifier, resolve kind, optional
importer. -/
structure PluginResolveHookParam where
  source : String
  kind : ResolveKind
  importer : Option ModuleId
deriving DecidableEq, Repr

/-- `PluginResolveHookResult`: resolved path, query parameters, external and
side-effect flags, opaque resolver metadata. -/
structure PluginResolveHookResult where
  resolvedPath : String
  query : List (String × String)
  external : Bool
  sideEffects : Bool
  meta : String
deriving DecidableEq, Repr

/-- `PluginLoadHookParam`. -/
structure PluginLoadHookParam where
  resolvedPath : String
  query : List (String × String)
  meta : String
  moduleId : String
deriving DecidableEq, Repr

/-- Loader output: raw content, a module-type hint, an optional source map. -/
structure PluginLoadHookResult where
  content : String
  moduleType : String
  sourceMap : Option String
deriving DecidableEq, Repr

/-- `PluginTransformHookParam`. -/
structure PluginTransformHookParam where
  content : String
  resolvedPath : String
  moduleType : String
  query : List (String × String)
  meta : String
  moduleId : String
  sourceMapChain : List String
deriving DecidableEq, Repr

/-- Transformer output: transformed content, an optional overriding module
type, the updated source-map chain. -/
structure PluginDriverTransformHookResult where
  content : String
  moduleType : Option String
  sourceMapChain : List String
deriving DecidableEq, Repr

/-- `PluginParseHookParam`. -/
structure PluginParseHookParam where
  moduleId : ModuleId
  resolvedPath : String
  query : List (String × String)
  moduleType : String
  content : String
deriving DecidableEq, Repr

/-- A dependency descriptor declared by the parse/process stage: source
specifier plus resolve kind (`PluginAnalyzeDepsHookResultEntry`). -/
structure PluginAnalyzeDepsHookResultEntry where
  source : String
  kind : ResolveKind
deriving DecidableEq, Repr

/-- Modelled from the spec: a cache entry — a fully-populated module plus its
already-resolved dependency descriptors, each carrying an optional pre-known
module id. -/
structure CachedModule where
  module : Module
  dependencies : List (PluginAnalyzeDepsHookResultEntry × Option ModuleId)
deriving DecidableEq, Repr

/-- Modelled from the spec: `CachedModule::dep_sources` hands the stored
dependency descriptors (with their pre-known ids) to the orchestrator. -/
def CachedModule.dep_sources
    (dependencies : List (PluginAnalyzeDepsHookResultEntry × Option ModuleId)) :
    List (PluginAnalyzeDepsHookResultEntry × Option ModuleId) :=
  dependencies

/-- The module cache: association list keyed by module identity. -/
abbrev CacheStore := List (ModuleId × CachedModule)

/-- Cache lookup by identity. -/
def lookupCache (cache : CacheStore) (id : ModuleId) : Option CachedModule :=
  match (List.find? (fun p => decide (p.1 = id)) cache) with
  | some p => some p.2
  | none => none

/-- Modelled from the spec: `has_cache(id)`. -/
def hasCache (cache : CacheStore) (id : ModuleId) : Bool :=
  (lookupCache cache id).isSome

/-- Modelled from the spec: `invalidate_cache(id)` drops the entry, forcing a
full rebuild. -/
def invalidateCache (cache : CacheStore) (id : ModuleId) : CacheStore :=
  List.filter (fun p => !(decide (p.1 = id))) cache

/-- Modelled from the spec: `try_get_module_cache_by_timestamp(id, ts)` —
returns the cached module plus dependencies when the recorded timestamp
equals the current modification time, else `none`. -/
def try_get_module_cache_by_timestamp (cache : CacheStore) (id : ModuleId)
    (timestamp : Nat) : Option CachedModule :=
  match lookupCache cache id with
  | some cm => if cm.module.lastUpdateTimestamp = timestamp then some cm else none
  | none => none

/-- Modelled from the spec: `try_get_module_cache_by_hash(id, hash)` —
returns the cached module plus dependencies when the recorded content hash
equals the given hash, else `none`. -/
def try_get_module_cache_by_hash (cache : CacheStore) (id : ModuleId)
    (hash : String) : Option CachedModule :=
  match lookupCache cache id with
  | some cm => if cm.module.contentHash = hash then some cm else none
  | none => none

/-- The external collaborators of the core, one field per interface contract
of the spec: resolver, loader, transformer, parser, post-parse processor,
modification-timestamp provider, content-hash function, and the cached-module
post-processing hook. -/
structure Env where
  resolveHook : PluginResolveHookParam → Except CompilationError PluginResolveHookResult
  loadHook : PluginLoadHookParam → Except CompilationError PluginLoadHookResult
  transformHook : PluginTransformHookParam → Except CompilationError PluginDriverTransformHookResult
  parseHook : PluginParseHookParam → Except CompilationError String
  processModuleHook : ModuleId → String → String → String → Except CompilationError String
  getTimestampOfModule : ModuleId → Nat
  getContentHashOfModule : String → String
  handleCachedModulesHook : CachedModule → Except CompilationError CachedModule

/-- Which external stage was invoked, in invocation order (instrumentation of
the embedding: one event per collaborator call the source makes). -/
inductive StageCall where
  | resolveCall
  | loadCall (id : ModuleId)
  | transformCall (id : ModuleId)
  | parseCall (id : ModuleId)
  | processCall (id : ModuleId)
deriving DecidableEq, Repr

/-- The pipeline calls (load/transform/parse/process) of a call log. -/
def pipelineCalls (log : List StageCall) : List StageCall :=
  log.filter (fun c => match c with
    | StageCall.resolveCall => false
    | _ => true)

/-- `ResolveModuleIdResult`: the computed identity plus the raw resolver
output. -/
structure ResolveModuleIdResult where
  moduleId : ModuleId
  resolveResult : PluginResolveHookResult
deriving DecidableEq, Repr

/-- `ResolvedModuleInfo`: the freshly created module record plus the
identity-resolution outcome. -/
structure ResolvedModuleInfo where
  module : Module
  resolveModuleIdResult : ResolveModuleIdResult
deriving DecidableEq, Repr

/-- `ResolveModuleResult`: already `built`, `cached`, or a fresh `success`
claim. -/
inductive ResolveModuleResult where
  | built (id : ModuleId)
  | cached (id : ModuleId)
  | success (info : ResolvedModuleInfo)
deriving DecidableEq, Repr

/-- Whether a resolve outcome is the Cache-Eligible transition. -/
def ResolveModuleResult.isCached : ResolveModuleResult → Bool
  | ResolveModuleResult.cached _ => true
  | _ => false

namespace Compiler

/-- `Compiler::create_module(module_id, external, immutable)`. -/
def create_module (moduleId : ModuleId) (external immutable : Bool) : Module :=
  let module := Module.new moduleId
  let module := if external then { module with external := true } else module
  let module := if immutable then { module with immutable := true } else module
  module

/-- `Compiler::insert_dummy_module`: insert a placeholder node to prevent the
module from being handled twice. -/
def insert_dummy_module (moduleId : ModuleId) (moduleGraph : ModuleGraph) :
    ModuleGraph :=
  moduleGraph.add_module (create_module moduleId false false)

/-- `Compiler::resolve_module_id`: run the resolver hook and derive the
module identity from the resolved path and the stringified query; a resolver
failure becomes the generic resolution error. The second component records
the resolver invocation. -/
def resolve_module_id (env : Env) (resolveParam : PluginResolveHookParam) :
    Except CompilationError ResolveModuleIdResult × List StageCall :=
  match env.resolveHook resolveParam with
  | Except.error _ =>
      (Except.error (CompilationError.genericError "Failed to resolve module id"),
       [StageCall.resolveCall])
  | Except.ok resolveResult =>
      (Except.ok
        { moduleId := ModuleId.new resolveResult.resolvedPath
            (stringify_query resolveResult.query)
          resolveResult := resolveResult },
       [StageCall.resolveCall])

/-- `Compiler::add_edge`: when the resolve parameter carries an importer,
append the edge item; `none` models the `expect` panic when an endpoint of
the edge is missing from the graph. Without an importer the graph is
untouched. -/
def add_edge (resolveParam : PluginResolveHookParam) (moduleId : ModuleId)
    (order : Nat) (moduleGraph : ModuleGraph) : Option ModuleGraph :=
  match resolveParam.importer with
  | some importerId =>
      moduleGraph.add_edge_item importerId moduleId
        { source := resolveParam.source, kind := resolveParam.kind, order := order }
  | none => some moduleGraph

/-- `Compiler::add_module`: record the entry-name binding for entry-kind
resolutions, then insert the module, or replace it wholesale if it already
exists. -/
def add_module (module : Module) (kind : ResolveKind) (moduleGraph : ModuleGraph) :
    ModuleGraph :=
  let moduleGraph :=
    match kind with
    | ResolveKind.entry name =>
        { moduleGraph with entries := insertEntry moduleGraph.entries module.id name }
    | _ => moduleGraph
  if moduleGraph.has_module module.id then
    moduleGraph.replace_module module
  else
    moduleGraph.add_module module

/-- The load parameter `build_module` constructs. -/
def loadParamOf (resolveResult : PluginResolveHookResult) (module : Module) :
    PluginLoadHookParam :=
  { resolvedPath := resolveResult.resolvedPath
    query := resolveResult.query
    meta := resolveResult.meta
    moduleId := module.id.toStr }

/-- The transform parameter `build_module` constructs from the load result. -/
def transformParamOf (resolveResult : PluginResolveHookResult) (module : Module)
    (loadResult : PluginLoadHookResult) (sourceMapChain : List String) :
    PluginTransformHookParam :=
  { content := loadResult.content
    resolvedPath := resolveResult.resolvedPath
    moduleType := loadResult.moduleType
    query := resolveResult.query
    meta := resolveResult.meta
    moduleId := module.id.toStr
    sourceMapChain := sourceMapChain }

/-- `Compiler::build_module_after_transform`: parse the transformed content,
run the post-parse processing hook, populate the module record (size, type,
side effects, external flag, source-map chain, metadata), and return the
dependency list — which the source leaves empty (`Ok(vec![])`). -/
def build_module_after_transform (env : Env)
    (resolveResult : PluginResolveHookResult) (loadModuleType : String)
    (transformResult : PluginDriverTransformHookResult) (module : Module) :
    Except CompilationError (Module × List PluginAnalyzeDepsHookResultEntry)
      × List StageCall :=
  let parseParam : PluginParseHookParam :=
    { moduleId := module.id
      resolvedPath := resolveResult.resolvedPath
      query := resolveResult.query
      moduleType := (transformResult.moduleType).getD loadModuleType
      content := transformResult.content }
  match env.parseHook parseParam with
  | Except.error e => (Except.error e, [StageCall.parseCall module.id])
  | Except.ok moduleMeta =>
      match env.processModuleHook parseParam.moduleId parseParam.moduleType
          module.content moduleMeta with
      | Except.error _ =>
          (Except.error (CompilationError.processModuleError resolveResult.resolvedPath),
           [StageCall.parseCall module.id, StageCall.processCall module.id])
      | Except.ok processedMeta =>
          let module :=
            { module with
                size := parseParam.content.utf8ByteSize
                moduleType := parseParam.moduleType
                sideEffects := resolveResult.sideEffects
                external := false
                sourceMapChain := transformResult.sourceMapChain
                meta := processedMeta }
          (Except.ok (module, []),
           [StageCall.parseCall module.id, StageCall.processCall module.id])

/-- `Compiler::build_module`: the four-stage pipeline over one module record —
timestamp short-circuit, load, transform, content-hash short-circuit, then
parse + process; returns the updated module together with its dependency
descriptors, and the log of external stage invocations. -/
def build_module (env : Env) (resolveResult : PluginResolveHookResult)
    (module : Module) (cache : CacheStore) :
    Except CompilationError
      (Module × List (PluginAnalyzeDepsHookResultEntry × Option ModuleId))
      × List StageCall :=
  let module :=
    { module with
        lastUpdateTimestamp :=
          if module.immutable then 0 else env.getTimestampOfModule module.id }
  match try_get_module_cache_by_timestamp cache module.id module.lastUpdateTimestamp with
  | some cachedModule =>
      (Except.ok (cachedModule.module, CachedModule.dep_sources cachedModule.dependencies), [])
  | none =>
    match env.loadHook (loadParamOf resolveResult module) with
    | Except.error e => (Except.error e, [StageCall.loadCall module.id])
    | Except.ok loadResult =>
      let sourceMapChain :=
        match loadResult.sourceMap with
        | some sourceMap => [sourceMap]
        | none => []
      let loadModuleType := loadResult.moduleType
      match env.transformHook
          (transformParamOf resolveResult module loadResult sourceMapChain) with
      | Except.error e =>
          (Except.error e, [StageCall.loadCall module.id, StageCall.transformCall module.id])
      | Except.ok transformResult =>
        let module := { module with content := transformResult.content }
        let module :=
          { module with
              contentHash :=
                if module.immutable then "immutable_module"
                else env.getContentHashOfModule transformResult.content }
        match try_get_module_cache_by_hash cache module.id module.contentHash with
        | some cachedModule =>
            (Except.ok (cachedModule.module, CachedModule.dep_sources cachedModule.dependencies),
             [StageCall.loadCall module.id, StageCall.transformCall module.id])
        | none =>
          match build_module_after_transform env resolveResult loadModuleType
              transformResult module with
          | (Except.error e, log2) =>
              (Except.error e,
               [StageCall.loadCall module.id, StageCall.transformCall module.id] ++ log2)
          | (Except.ok (module, deps), log2) =>
              (Except.ok (module, deps.map (fun dep => (dep, none))),
               [StageCall.loadCall module.id, StageCall.transformCall module.id] ++ log2)

end Compiler

/-- `handle_cached_dependency`: when the pre-known dependency id has a cache
entry, the current policy always invalidates it (`should_invalidate_cached_module`
is hard-coded `true`), so the function reports no cached result; the dead
branch would insert the placeholder and report the Cache-Eligible result. -/
def handle_cached_dependency (cachedDependency : ModuleId)
    (moduleGraph : ModuleGraph) (cache : CacheStore) :
    Except CompilationError (Option ResolveModuleResult × ModuleGraph × CacheStore) :=
  if hasCache cache cachedDependency then
    let shouldInvalidateCachedModule := true
    if shouldInvalidateCachedModule then
      Except.ok (none, moduleGraph, invalidateCache cache cachedDependency)
    else
      Except.ok (some (ResolveModuleResult.cached cachedDependency),
        Compiler.insert_dummy_module cachedDependency moduleGraph, cache)
  else
    Except.ok (none, moduleGraph, cache)

/-- The tail of `resolve_module` past the membership check and the
cached-dependency handling: obtain the identity-resolution result (reusing
the pre-lock one when it exists, else invoking the resolver), insert the
placeholder under the same lock acquisition, and produce the fresh module
record (external flag from the resolver, immutable hard-coded `false`). -/
def resolveModuleClaim (env : Env) (resolveParam : PluginResolveHookParam)
    (resolveModuleIdResult0 : Option ResolveModuleIdResult)
    (moduleGraph : ModuleGraph) (cache : CacheStore) :
    Except CompilationError (ResolveModuleResult × ModuleGraph × CacheStore)
      × List StageCall :=
  let step :=
    match resolveModuleIdResult0 with
    | some result => (Except.ok result, ([] : List StageCall))
    | none => Compiler.resolve_module_id env resolveParam
  match step with
  | (Except.error e, log) => (Except.error e, log)
  | (Except.ok resolveModuleIdResult, log) =>
    let moduleGraph :=
      Compiler.insert_dummy_module resolveModuleIdResult.moduleId moduleGraph
    let module :=
      Compiler.create_module resolveModuleIdResult.moduleId
        resolveModuleIdResult.resolveResult.external false
    (Except.ok
      (ResolveModuleResult.success
        { module := module, resolveModuleIdResult := resolveModuleIdResult },
       moduleGraph, cache),
     log)

/-- `resolve_module`: compute the identity (from the pre-known cached
dependency, else by running the resolver), then — under one exclusive-lock
acquisition — check graph membership (Already-Built), consult the
cached-dependency policy, and otherwise claim the identity by inserting the
placeholder. -/
def resolve_module (env : Env) (resolveParam : PluginResolveHookParam)
    (cachedDependency : Option ModuleId) (moduleGraph : ModuleGraph)
    (cache : CacheStore) :
    Except CompilationError (ResolveModuleResult × ModuleGraph × CacheStore)
      × List StageCall :=
  let step :=
    match cachedDependency with
    | some cachedId => (Except.ok (none, cachedId), ([] : List StageCall))
    | none =>
      match Compiler.resolve_module_id env resolveParam with
      | (Except.error e, log) => (Except.error e, log)
      | (Except.ok result, log) => (Except.ok (some result, result.moduleId), log)
  match step with
  | (Except.error e, log) => (Except.error e, log)
  | (Except.ok (resolveModuleIdResult0, moduleId), log) =>
    if moduleGraph.has_module moduleId then
      (Except.ok (ResolveModuleResult.built moduleId, moduleGraph, cache), log)
    else
      match cachedDependency with
      | some cachedId =>
        match handle_cached_dependency cachedId moduleGraph cache with
        | Except.error e => (Except.error e, log)
        | Except.ok (some result, moduleGraph, cache) =>
            (Except.ok (result, moduleGraph, cache), log)
        | Except.ok (none, moduleGraph, cache) =>
            match resolveModuleClaim env resolveParam resolveModuleIdResult0
                moduleGraph cache with
            | (result, log2) => (result, log ++ log2)
      | none =>
        match resolveModuleClaim env resolveParam resolveModuleIdResult0
            moduleGraph cache with
        | (result, log2) => (result, log ++ log2)

/-- The shared build state threaded through the orchestrator: the module
graph, the module cache, the errors collected on the error channel, the log
of external stage invocations, and whether a fatal graph-consistency panic
occurred. -/
structure BuildState where
  graph : ModuleGraph
  cache : CacheStore
  errors : List CompilationError
  log : List StageCall
  panicked : Bool
deriving DecidableEq, Repr

/-- The initial state: empty graph, given cache, no errors. -/
def BuildState.init (cache : CacheStore) : BuildState :=
  { graph := ModuleGraph.empty, cache := cache, errors := [], log := [], panicked := false }

/-- `BuildModuleGraphParams` (the error channel lives in `BuildState`). -/
structure BuildModuleGraphParams where
  resolveParam : PluginResolveHookParam
  cachedDependency : Option ModuleId
  order : Nat
deriving DecidableEq, Repr

/-- `HandleDependenciesParams` (the error channel lives in `BuildState`). -/
structure HandleDependenciesParams where
  module : Module
  resolveParam : PluginResolveHookParam
  order : Nat
  deps : List (PluginAnalyzeDepsHookResultEntry × Option ModuleId)
deriving DecidableEq, Repr

/-- The child-task parameters `handle_dependencies` prepares before spawning:
one per dependency descriptor, enumerated in declaration order, each carrying
its ordinal position as the edge order and the current module as importer;
the pre-known cached id is propagated only for immutable importers. -/
def dependencyTaskParams (moduleId : ModuleId) (immutable : Bool)
    (deps : List (PluginAnalyzeDepsHookResultEntry × Option ModuleId)) :
    List BuildModuleGraphParams :=
  deps.enum.map (fun p =>
    { resolveParam :=
        { source := p.2.1.source, importer := some moduleId, kind := p.2.1.kind }
      order := p.1
      cachedDependency := if immutable then p.2.2 else none })

/-- `handle_dependencies`, parameterized by the recursive call used for each
spawned child task: add the module and its inbound edge to the graph, then
run one child task per dependency descriptor. `recurse` is
`build_module_graph` at the remaining fuel. -/
def handleDependenciesWith
    (recurse : BuildModuleGraphParams → BuildState → BuildState)
    (params : HandleDependenciesParams) (st : BuildState) : BuildState :=
  let moduleId := params.module.id
  let immutable := params.module.immutable
  let graph1 := Compiler.add_module params.module params.resolveParam.kind st.graph
  match Compiler.add_edge params.resolveParam moduleId params.order graph1 with
  | none => { st with graph := graph1, panicked := true }
  | some graph2 =>
    (dependencyTaskParams moduleId immutable params.deps).foldl
      (fun acc childParams => recurse childParams acc)
      { st with graph := graph2 }

/-- A default cache entry (the source's `get_cache` transfers an entry that
the `Cached` transition guarantees to exist; the default is never reached). -/
def defaultCachedModule (id : ModuleId) : CachedModule :=
  { module := Module.new id, dependencies := [] }

/-- `build_module_graph`: the per-task state machine — Resolving/Claiming via
`resolve_module`, then Already-Built (edge only), Cache-Eligible (adopt the
cached module), or Building (external short-circuit, else the build
pipeline), then Dependency-Fanout. Errors of this task are forwarded to the
error channel and terminate only this task. Fuel bounds the recursion depth
of the embedding; with fuel `0` the task does nothing. -/
def build_module_graph : Nat → Env → BuildModuleGraphParams → BuildState → BuildState
  | 0, _, _, st => st
  | Nat.succ fuel, env, params, st =>
    match resolve_module env params.resolveParam params.cachedDependency
        st.graph st.cache with
    | (Except.error e, log) =>
        { st with errors := st.errors ++ [e], log := st.log ++ log }
    | (Except.ok (result, graph, cache), log) =>
      let st := { st with graph := graph, cache := cache, log := st.log ++ log }
      match result with
      | ResolveModuleResult.success info =>
        if info.resolveModuleIdResult.resolveResult.external then
          let moduleId := info.module.id
          let graph1 := Compiler.add_module info.module params.resolveParam.kind st.graph
          match Compiler.add_edge params.resolveParam moduleId params.order graph1 with
          | none => { st with graph := graph1, panicked := true }
          | some graph2 => { st with graph := graph2 }
        else
          match Compiler.build_module env info.resolveModuleIdResult.resolveResult
              info.module st.cache with
          | (Except.error e, log2) =>
              { st with errors := st.errors ++ [e], log := st.log ++ log2 }
          | (Except.ok (module, deps), log2) =>
              handleDependenciesWith (build_module_graph fuel env)
                { module := module, resolveParam := params.resolveParam
                  order := params.order, deps := deps }
                { st with log := st.log ++ log2 }
      | ResolveModuleResult.built moduleId =>
        match Compiler.add_edge params.resolveParam moduleId params.order st.graph with
        | none => { st with panicked := true }
        | some graph2 => { st with graph := graph2 }
      | ResolveModuleResult.cached moduleId =>
        let cachedModule := (lookupCache st.cache moduleId).getD (defaultCachedModule moduleId)
        let step :=
          match env.handleCachedModulesHook cachedModule with
          | Except.error e => (cachedModule, [e])
          | Except.ok cachedModule => (cachedModule, [])
        handleDependenciesWith (build_module_graph fuel env)
          { module := step.1.module, resolveParam := params.resolveParam
            order := params.order
            deps := CachedModule.dep_sources step.1.dependencies }
          { st with errors := st.errors ++ step.2 }

/-- `handle_dependencies` at a given fuel for its child tasks. -/
def handle_dependencies (fuel : Nat) (env : Env)
    (params : HandleDependenciesParams) (st : BuildState) : BuildState :=
  handleDependenciesWith (build_module_graph fuel env) params st

/-! ### Helper lemmas -/

theorem lookupCache_invalidate_self (cache : CacheStore) (id : ModuleId) :
    lookupCache (invalidateCache cache id) id = none := by
  have hfind : List.find? (fun p => decide (p.1 = id)) (invalidateCache cache id) = none := by
    rw [List.find?_eq_none]
    intro x hx
    simp only [invalidateCache, List.mem_filter] at hx
    simpa using hx.2
  simp [lookupCache, hfind]

theorem hasCache_invalidate_self (cache : CacheStore) (id : ModuleId) :
    hasCache (invalidateCache cache id) id = false := by
  simp [hasCache, lookupCache_invalidate_self]

theorem handle_cached_dependency_eq (cid : ModuleId) (g : ModuleGraph)
    (cache : CacheStore) :
    handle_cached_dependency cid g cache
      = Except.ok (none, g,
          if hasCache cache cid then invalidateCache cache cid else cache) := by
  by_cases h : hasCache cache cid <;> simp [handle_cached_dependency, h]

theorem create_module_id (id : ModuleId) (external immutable : Bool) :
    (Compiler.create_module id external immutable).id = id := by
  by_cases he : external <;> by_cases hi : immutable <;>
    simp [Compiler.create_module, Module.new, he, hi]

theorem create_module_false_false (id : ModuleId) :
    Compiler.create_module id false false = Module.new id := by
  simp [Compiler.create_module]

theorem has_module_add_module (g : ModuleGraph) (m : Module) (id : ModuleId)
    (h : g.has_module id = true) :
    (g.add_module m).has_module id = true := by
  simp only [ModuleGraph.has_module, ModuleGraph.add_module, List.any_append]
  simp only [ModuleGraph.has_module] at h
  simp [h]

theorem has_module_add_module_self (g : ModuleGraph) (m : Module) :
    (g.add_module m).has_module m.id = true := by
  simp [ModuleGraph.has_module, ModuleGraph.add_module]

theorem has_module_replace_module (g : ModuleGraph) (m : Module) (id : ModuleId)
    (h : g.has_module id = true) :
    (g.replace_module m).has_module id = true := by
  simp only [ModuleGraph.has_module, ModuleGraph.replace_module, List.any_map,
    List.any_eq_true] at h ⊢
  obtain ⟨m0, hm0, hid⟩ := h
  refine ⟨m0, hm0, ?_⟩
  simp only [Function.comp_apply, decide_eq_true_eq] at hid ⊢
  by_cases hcase : m0.id = m.id
  · rw [if_pos hcase, ← hcase]
    exact hid
  · rw [if_neg hcase]
    exact hid

theorem has_module_compiler_add_module (m : Module) (kind : ResolveKind)
    (g : ModuleGraph) (id : ModuleId) (h : g.has_module id = true) :
    (Compiler.add_module m kind g).has_module id = true := by
  unfold Compiler.add_module
  have hbase :
      ∀ g1 : ModuleGraph, g1.has_module id = true →
        (if g1.has_module m.id then g1.replace_module m else g1.add_module m).has_module id
          = true := by
    intro g1 h1
    by_cases hc : g1.has_module m.id
    · simpa [hc] using has_module_replace_module g1 m id h1
    · simpa [hc] using has_module_add_module g1 m id h1
  cases kind with
  | entry name =>
      exact hbase { g with entries := insertEntry g.entries m.id name } (by simpa using h)
  | staticImport => exact hbase g h
  | dynamicImport => exact hbase g h

theorem has_module_compiler_add_module_self (m : Module) (kind : ResolveKind)
    (g : ModuleGraph) :
    (Compiler.add_module m kind g).has_module m.id = true := by
  unfold Compiler.add_module
  have hbase :
      ∀ g1 : ModuleGraph,
        (if g1.has_module m.id then g1.replace_module m else g1.add_module m).has_module m.id
          = true := by
    intro g1
    by_cases hc : g1.has_module m.id
    · simp only [hc, if_true]
      simp only [ModuleGraph.has_module, ModuleGraph.replace_module, List.any_map,
        List.any_eq_true] at hc ⊢
      obtain ⟨m0, hm0, hid⟩ := hc
      refine ⟨m0, hm0, ?_⟩
      simp only [decide_eq_true_eq] at hid
      simp [Function.comp, hid]
    · simpa [hc] using has_module_add_module_self g1 m
  cases kind with
  | entry name => exact hbase { g with entries := insertEntry g.entries m.id name }
  | staticImport => exact hbase g
  | dynamicImport => exact hbase g

theorem has_module_insert_dummy (id0 : ModuleId) (g : ModuleGraph) (id : ModuleId)
    (h : g.has_module id = true) :
    (Compiler.insert_dummy_module id0 g).has_module id = true := by
  simpa [Compiler.insert_dummy_module] using
    has_module_add_module g (Compiler.create_module id0 false false) id h

theorem has_module_insert_dummy_self (id0 : ModuleId) (g : ModuleGraph) :
    (Compiler.insert_dummy_module id0 g).has_module id0 = true := by
  have := has_module_add_module_self g (Compiler.create_module id0 false false)
  simpa [Compiler.insert_dummy_module, create_module_id] using this

theorem add_edge_modules (p : PluginResolveHookParam) (dep : ModuleId)
    (order : Nat) (g g2 : ModuleGraph)
    (h : Compiler.add_edge p dep order g = some g2) :
    g2.modules = g.modules := by
  unfold Compiler.add_edge ModuleGraph.add_edge_item at h
  cases hi : p.importer with
  | none => rw [hi] at h; cases h; rfl
  | some imp =>
      rw [hi] at h
      by_cases hc : (g.has_module imp && g.has_module dep) = true
      · simp only [hc, if_true, Option.some.injEq] at h
        rw [← h]
      · simp [hc] at h

theorem resolveModuleClaim_ok (env : Env) (p : PluginResolveHookParam)
    (r0 : Option ResolveModuleIdResult) (g : ModuleGraph) (c : CacheStore)
    (res : ResolveModuleResult) (g' : ModuleGraph) (c' : CacheStore)
    (log : List StageCall)
    (h : resolveModuleClaim env p r0 g c = (Except.ok (res, g', c'), log)) :
    ∃ info, res = ResolveModuleResult.success info := by
  cases r0 with
  | some result =>
      simp only [resolveModuleClaim, Prod.mk.injEq, Except.ok.injEq] at h
      exact ⟨_, h.1.1.symm⟩
  | none =>
      rcases hstep : Compiler.resolve_module_id env p with ⟨res0, log0⟩
      unfold resolveModuleClaim at h
      rw [hstep] at h
      cases res0 with
      | error e => simp at h
      | ok result =>
          simp only [Prod.mk.injEq, Except.ok.injEq] at h
          exact ⟨_, h.1.1.symm⟩

theorem resolve_module_not_cached (env : Env) (p : PluginResolveHookParam)
    (cd : Option ModuleId) (g : ModuleGraph) (c : CacheStore)
    (r : ResolveModuleResult) (g' : ModuleGraph) (c' : CacheStore)
    (log : List StageCall)
    (h : resolve_module env p cd g c = (Except.ok (r, g', c'), log)) :
    r.isCached = false := by
  cases cd with
  | some cid =>
      unfold resolve_module at h
      by_cases hmem : g.has_module cid = true
      · simp only [hmem, if_true, Prod.mk.injEq, Except.ok.injEq] at h
        rw [← h.1.1]
        rfl
      · rw [Bool.not_eq_true] at hmem
        simp only [hmem, Bool.false_eq_true, if_false,
          handle_cached_dependency_eq] at h
        rcases hclaim : resolveModuleClaim env p none g
            (if hasCache c cid = true then invalidateCache c cid else c) with
          ⟨resc, logc⟩
        rw [hclaim] at h
        cases resc with
        | error e => simp at h
        | ok trip =>
            obtain ⟨trip1, trip2⟩ := trip
            simp only [Prod.mk.injEq, Except.ok.injEq] at h
            obtain ⟨info, hinfo⟩ :=
              resolveModuleClaim_ok env p none g _ trip1 trip2.1 trip2.2 logc hclaim
            rw [← h.1.1, hinfo]
            rfl
  | none =>
      rcases hrid : Compiler.resolve_module_id env p with ⟨res0, log0⟩
      unfold resolve_module at h
      rw [hrid] at h
      cases res0 with
      | error e => simp at h
      | ok result =>
          by_cases hmem : g.has_module result.moduleId = true
          · simp only [hmem, if_true, Prod.mk.injEq, Except.ok.injEq] at h
            rw [← h.1.1]
            rfl
          · rw [Bool.not_eq_true] at hmem
            simp only [hmem, Bool.false_eq_true, if_false] at h
            rcases hclaim : resolveModuleClaim env p (some result) g c with ⟨resc, logc⟩
            rw [hclaim] at h
            cases resc with
            | error e => simp at h
            | ok trip =>
                obtain ⟨trip1, trip2⟩ := trip
                simp only [Prod.mk.injEq, Except.ok.injEq] at h
                obtain ⟨info, hinfo⟩ :=
                  resolveModuleClaim_ok env p (some result) g c trip1 trip2.1 trip2.2
                    logc hclaim
                rw [← h.1.1, hinfo]
                rfl

/-- C6: for every pre-known cached dependency id with a cache entry,
`handle_cached_dependency` always invalidates (drops) the entry and reports
no cached result, so the build falls through to a full fresh build; and
consequently `resolve_module` never returns the Cache-Eligible
(`ResolveModuleResult.cached`) transition. -/
theorem c6_cached_dependency_always_invalidated
    (cid : ModuleId) (g : ModuleGraph) (cache : CacheStore)
    (hcache : hasCache cache cid = true) :
    (handle_cached_dependency cid g cache
        = Except.ok (none, g, invalidateCache cache cid)
      ∧ hasCache (invalidateCache cache cid) cid = false)
    ∧ ∀ (env : Env) (p : PluginResolveHookParam) (cd : Option ModuleId)
        (g0 : ModuleGraph) (c0 : CacheStore) (r : ResolveModuleResult)
        (g1 : ModuleGraph) (c1 : CacheStore) (log : List StageCall),
        resolve_module env p cd g0 c0 = (Except.ok (r, g1, c1), log) →
        r.isCached = false := by
  refine ⟨⟨?_, hasCache_invalidate_self cache cid⟩, ?_⟩
  · rw [handle_cached_dependency_eq, hcache]
    rfl
  · intro env p cd g0 c0 r g1 c1 log h
    exact resolve_module_not_cached env p cd g0 c0 r g1 c1 log h

/-- A concrete module identity used by the witnesses. -/
def widA : ModuleId := ModuleId.new "a.js" ""

/-- A concrete cache used by the witnesses. -/
def wcacheA : CacheStore := [(widA, defaultCachedModule widA)]

theorem c6_cached_dependency_always_invalidated_witness :
    hasCache wcacheA widA = true
    ∧ handle_cached_dependency widA ModuleGraph.empty wcacheA
        = Except.ok (none, ModuleGraph.empty, invalidateCache wcacheA widA) :=
  ⟨by decide,
   ((c6_cached_dependency_always_invalidated widA ModuleGraph.empty wcacheA
      (by decide)).1).1⟩

/-- C8: the child-task parameters are prepared by enumerating the importer's
declared dependency list before any task runs: the edge-item ordinal of the
i-th spawned task is exactly i, its importer is the current module, and its
source is the i-th declared specifier — independent of task completion
order. -/
theorem c8_edge_order_from_declaration_position (moduleId : ModuleId)
    (immutable : Bool)
    (deps : List (PluginAnalyzeDepsHookResultEntry × Option ModuleId)) :
    (dependencyTaskParams moduleId immutable deps).length = deps.length
    ∧ ∀ (i : Nat) (h : i < (dependencyTaskParams moduleId immutable deps).length),
        ((dependencyTaskParams moduleId immutable deps).get ⟨i, h⟩).order = i
        ∧ ((dependencyTaskParams moduleId immutable deps).get ⟨i, h⟩).resolveParam.importer
            = some moduleId
        ∧ ∀ (h2 : i < deps.length),
            ((dependencyTaskParams moduleId immutable deps).get ⟨i, h⟩).resolveParam.source
              = ((deps.get ⟨i, h2⟩).1).source := by
  have hlen : (dependencyTaskParams moduleId immutable deps).length = deps.length := by
    simp [dependencyTaskParams]
  refine ⟨hlen, ?_⟩
  intro i h
  refine ⟨?_, ?_, ?_⟩
  · simp [dependencyTaskParams, List.get_eq_getElem]
  · simp [dependencyTaskParams, List.get_eq_getElem]
  · intro h2
    simp [dependencyTaskParams, List.get_eq_getElem]

/-- Concrete three-element dependency list for the witnesses. -/
def wdeps3 : List (PluginAnalyzeDepsHookResultEntry × Option ModuleId) :=
  [({ source := "./x.js", kind := ResolveKind.staticImport }, none),
   ({ source := "./y.js", kind := ResolveKind.staticImport }, none),
   ({ source := "./z.js", kind := ResolveKind.staticImport }, none)]

theorem c8_edge_order_from_declaration_position_witness :
    (2 : Nat) < (dependencyTaskParams widA false wdeps3).length
    ∧ ((dependencyTaskParams widA false wdeps3).get ⟨2, by decide⟩).order = 2 :=
  ⟨by decide,
   ((c8_edge_order_from_declaration_position widA false wdeps3).2 2 (by decide)).1⟩

theorem edgeItems_upsert (g : ModuleGraph) (imp dep : ModuleId)
    (item : ModuleGraphEdgeDataItem) :
    ModuleGraph.edgeItems { g with edges := upsertEdge g.edges imp dep item } imp dep
      = g.edgeItems imp dep ++ [item] := by
  unfold ModuleGraph.edgeItems upsertEdge
  by_cases hany : g.edges.any (fun e => decide (e.1 = (imp, dep))) = true
  · rw [if_pos hany]
    have hfun :
        ((fun e : (ModuleId × ModuleId) × List ModuleGraphEdgeDataItem =>
            decide (e.1 = (imp, dep)))
          ∘ (fun e : (ModuleId × ModuleId) × List ModuleGraphEdgeDataItem =>
              if e.1 = (imp, dep) then (e.1, e.2 ++ [item]) else e))
          = fun e : (ModuleId × ModuleId) × List ModuleGraphEdgeDataItem =>
              decide (e.1 = (imp, dep)) := by
      funext e
      by_cases hc : e.1 = (imp, dep) <;> simp [Function.comp, hc]
    rw [List.find?_map, hfun]
    rw [List.any_eq_true] at hany
    obtain ⟨e0, he0, hpred⟩ := hany
    obtain ⟨e1, hfind⟩ :
        ∃ e1, g.edges.find? (fun e => decide (e.1 = (imp, dep))) = some e1 := by
      have : (g.edges.find? (fun e => decide (e.1 = (imp, dep)))).isSome := by
        rw [List.find?_isSome]
        exact ⟨e0, he0, hpred⟩
      exact Option.isSome_iff_exists.mp this
    have he1 : e1.1 = (imp, dep) := by
      have := List.find?_some hfind
      simpa using this
    rw [hfind]
    simp [Option.map, he1]
  · rw [if_neg hany]
    have hnone : g.edges.find? (fun e => decide (e.1 = (imp, dep))) = none := by
      rw [List.find?_eq_none]
      intro x hx
      rw [Bool.not_eq_true] at hany
      rw [List.any_eq_false] at hany
      simp [hany x hx]
    rw [List.find?_append, hnone]
    simp

/-- C9: `add_edge` inserts an edge item only when an importer id is present
and requires both endpoints to exist in the graph: with both present the
insertion succeeds and appends the item to the edge's item collection; with
an endpoint missing the result is the fatal panic (`none`), and at the
orchestrator's Already-Built call site this sets the panic flag without
forwarding anything through the error channel. -/
theorem c9_add_edge_endpoint_safety (p : PluginResolveHookParam)
    (dep : ModuleId) (order : Nat) (g : ModuleGraph) :
    (p.importer = none → Compiler.add_edge p dep order g = some g)
    ∧ (∀ imp, p.importer = some imp →
        (g.has_module imp = true → g.has_module dep = true →
          ∃ g2, Compiler.add_edge p dep order g = some g2
            ∧ g2.modules = g.modules
            ∧ g2.edgeItems imp dep
                = g.edgeItems imp dep
                  ++ [{ source := p.source, kind := p.kind, order := order }])
        ∧ ((g.has_module imp = false ∨ g.has_module dep = false) →
            Compiler.add_edge p dep order g = none))
    ∧ ∀ (fuel : Nat) (env : Env) (params : BuildModuleGraphParams)
        (st : BuildState) (id : ModuleId) (g1 : ModuleGraph) (c1 : CacheStore)
        (log : List StageCall),
        resolve_module env params.resolveParam params.cachedDependency
            st.graph st.cache
          = (Except.ok (ResolveModuleResult.built id, g1, c1), log) →
        Compiler.add_edge params.resolveParam id params.order g1 = none →
        build_module_graph (fuel + 1) env params st
          = { st with
                graph := g1
                cache := c1
                log := st.log ++ log
                panicked := true } := by
  refine ⟨?_, ?_, ?_⟩
  · intro hnone
    simp [Compiler.add_edge, hnone]
  · intro imp himp
    constructor
    · intro h1 h2
      have hedge : Compiler.add_edge p dep order g
          = some { g with
              edges := upsertEdge g.edges imp dep
                { source := p.source, kind := p.kind, order := order } } := by
        simp [Compiler.add_edge, himp, ModuleGraph.add_edge_item, h1, h2]
      exact ⟨_, hedge, rfl, edgeItems_upsert g imp dep _⟩
    · intro hmiss
      rcases hmiss with hm | hm <;>
        simp [Compiler.add_edge, himp, ModuleGraph.add_edge_item, hm]
  · intro fuel env params st id g1 c1 log hres hedge
    unfold build_module_graph
    rw [hres]
    simp only [hedge]

theorem build_module_after_transform_timestamp_independent (env : Env)
    (f : ModuleId → Nat) (rr : PluginResolveHookResult) (lmt : String)
    (tr : PluginDriverTransformHookResult) (m : Module) :
    Compiler.build_module_after_transform { env with getTimestampOfModule := f }
        rr lmt tr m
      = Compiler.build_module_after_transform env rr lmt tr m := rfl

/-- C4: on a timestamp-cache hit for a mutable module, `build_module`
overwrites the module record wholesale with the cached module and returns the
cached dependency descriptors without invoking load, transform, or parse (the
stage log is empty); immutable modules record timestamp 0: the result is
independent of the timestamp provider, and the timestamp lookup is keyed by
0. -/
theorem c4_timestamp_short_circuit
    (env : Env) (resolveResult : PluginResolveHookResult) (module : Module)
    (cache : CacheStore) (cm : CachedModule)
    (hmut : module.immutable = false)
    (hhit : try_get_module_cache_by_timestamp cache module.id
        (env.getTimestampOfModule module.id) = some cm) :
    Compiler.build_module env resolveResult module cache
      = (Except.ok (cm.module, CachedModule.dep_sources cm.dependencies), [])
    ∧ (∀ (f : ModuleId → Nat) (module2 : Module), module2.immutable = true →
        Compiler.build_module env resolveResult module2 cache
          = Compiler.build_module { env with getTimestampOfModule := f }
              resolveResult module2 cache)
    ∧ (∀ (module2 : Module) (cm2 : CachedModule), module2.immutable = true →
        try_get_module_cache_by_timestamp cache module2.id 0 = some cm2 →
        Compiler.build_module env resolveResult module2 cache
          = (Except.ok (cm2.module, CachedModule.dep_sources cm2.dependencies), [])) := by
  refine ⟨?_, ?_, ?_⟩
  · unfold Compiler.build_module
    simp only [hmut, Bool.false_eq_true, if_false, hhit]
  · intro f module2 h2
    unfold Compiler.build_module
    simp only [h2, if_true, build_module_after_transform_timestamp_independent]
  · intro module2 cm2 h2 hhit2
    unfold Compiler.build_module
    simp only [h2, if_true, hhit2]

/-- A concrete resolver output used by the witnesses. -/
def wrrA : PluginResolveHookResult :=
  { resolvedPath := "a.js", query := [], external := false,
    sideEffects := false, meta := "" }

/-- A concrete collaborator environment used by the witnesses: every stage
succeeds, timestamps are constantly 7, and the content hash is the content
prefixed with a marker. -/
def wEnv : Env :=
  { resolveHook := fun p =>
      Except.ok { resolvedPath := p.source.drop 2, query := [], external := false,
                  sideEffects := false, meta := "" }
    loadHook := fun p =>
      Except.ok { content := "content:" ++ p.resolvedPath, moduleType := "js",
                  sourceMap := none }
    transformHook := fun p =>
      Except.ok { content := p.content, moduleType := none,
                  sourceMapChain := p.sourceMapChain }
    parseHook := fun _ => Except.ok "meta"
    processModuleHook := fun _ _ _ meta0 => Except.ok meta0
    getTimestampOfModule := fun _ => 7
    getContentHashOfModule := fun s => "hash:" ++ s
    handleCachedModulesHook := fun cm => Except.ok cm }

/-- A fully-populated cached module for `widA` recorded at timestamp 7. -/
def wcmTs : CachedModule :=
  { module := { Module.new widA with lastUpdateTimestamp := 7, moduleType := "js" }
    dependencies := [] }

/-- A cache holding `wcmTs` under `widA`. -/
def wcacheTs : CacheStore := [(widA, wcmTs)]

theorem c4_timestamp_short_circuit_witness :
    ((Module.new widA).immutable = false
      ∧ try_get_module_cache_by_timestamp wcacheTs (Module.new widA).id
          (wEnv.getTimestampOfModule (Module.new widA).id) = some wcmTs)
    ∧ Compiler.build_module wEnv wrrA (Module.new widA) wcacheTs
        = (Except.ok (wcmTs.module, CachedModule.dep_sources wcmTs.dependencies), []) :=
  ⟨⟨rfl, by decide⟩,
   (c4_timestamp_short_circuit wEnv wrrA (Module.new widA) wcacheTs wcmTs rfl
      (by decide)).1⟩

theorem build_module_after_transform_contentHash (env : Env)
    (rr : PluginResolveHookResult) (lmt : String)
    (tr : PluginDriverTransformHookResult) (m : Module)
    (res : Module × List PluginAnalyzeDepsHookResultEntry) (log : List StageCall)
    (h : Compiler.build_module_after_transform env rr lmt tr m
        = (Except.ok res, log)) :
    res.1.contentHash = m.contentHash := by
  unfold Compiler.build_module_after_transform at h
  simp only [] at h
  split at h
  · simp at h
  · split at h
    · simp at h
    · simp only [Prod.mk.injEq, Except.ok.injEq] at h
      rw [← h.1]

/-- C5: after the transform stage, `build_module` keys the content-hash
lookup by the hash of the transformed content — the immutable sentinel
`"immutable_module"` for an immutable module — and on a hit overwrites the
module record wholesale with the cached module, returning the cached
dependency descriptors with the parse stage skipped (no parse call in the
log); on a miss, the module produced by the parse path carries exactly that
hash. -/
theorem c5_content_hash_short_circuit
    (env : Env) (resolveResult : PluginResolveHookResult) (module : Module)
    (cache : CacheStore) (loadResult : PluginLoadHookResult)
    (transformResult : PluginDriverTransformHookResult)
    (hts : try_get_module_cache_by_timestamp cache module.id
        (if module.immutable then 0 else env.getTimestampOfModule module.id)
      = none)
    (hload : env.loadHook (Compiler.loadParamOf resolveResult
        { module with
            lastUpdateTimestamp :=
              if module.immutable then 0 else env.getTimestampOfModule module.id })
      = Except.ok loadResult)
    (htr : env.transformHook (Compiler.transformParamOf resolveResult
        { module with
            lastUpdateTimestamp :=
              if module.immutable then 0 else env.getTimestampOfModule module.id }
        loadResult
        (match loadResult.sourceMap with
          | some sourceMap => [sourceMap]
          | none => []))
      = Except.ok transformResult) :
    (∀ cm, try_get_module_cache_by_hash cache module.id
          (if module.immutable then "immutable_module"
            else env.getContentHashOfModule transformResult.content) = some cm →
        Compiler.build_module env resolveResult module cache
          = (Except.ok (cm.module, CachedModule.dep_sources cm.dependencies),
             [StageCall.loadCall module.id, StageCall.transformCall module.id]))
    ∧ (try_get_module_cache_by_hash cache module.id
          (if module.immutable then "immutable_module"
            else env.getContentHashOfModule transformResult.content) = none →
        ∀ m4 deps log, Compiler.build_module env resolveResult module cache
            = (Except.ok (m4, deps), log) →
          m4.contentHash
            = (if module.immutable then "immutable_module"
                else env.getContentHashOfModule transformResult.content)) := by
  constructor
  · intro cm hhit
    unfold Compiler.build_module
    simp only [hts, hload, htr, hhit]
  · intro hmiss m4 deps log hbm
    unfold Compiler.build_module at hbm
    simp only [hts, hload, htr, hmiss] at hbm
    split at hbm
    · simp at hbm
    · rename_i module1 deps1 log1 heq
      simp only [Prod.mk.injEq, Except.ok.injEq] at hbm
      have hch := build_module_after_transform_contentHash env resolveResult
        loadResult.moduleType transformResult _ _ _ heq
      rw [← hbm.1.1, hch]

/-- Cached module for the hash-hit witness: stale timestamp, matching hash. -/
def wcmHash : CachedModule :=
  { module := { Module.new widA with
      contentHash := "hash:content:a.js"
      lastUpdateTimestamp := 3 }
    dependencies := [] }

/-- A cache holding `wcmHash` under `widA`. -/
def wcacheHash : CacheStore := [(widA, wcmHash)]

/-- Concrete load result for the witnesses. -/
def wloadRes : PluginLoadHookResult :=
  { content := "content:a.js", moduleType := "js", sourceMap := none }

/-- Concrete transform result for the witnesses. -/
def wtrRes : PluginDriverTransformHookResult :=
  { content := "content:a.js", moduleType := none, sourceMapChain := [] }

theorem c5_content_hash_short_circuit_witness :
    try_get_module_cache_by_hash wcacheHash (Module.new widA).id
        (if (Module.new widA).immutable then "immutable_module"
          else wEnv.getContentHashOfModule wtrRes.content) = some wcmHash
    ∧ Compiler.build_module wEnv wrrA (Module.new widA) wcacheHash
        = (Except.ok (wcmHash.module, CachedModule.dep_sources wcmHash.dependencies),
           [StageCall.loadCall (Module.new widA).id,
            StageCall.transformCall (Module.new widA).id]) :=
  ⟨by decide,
   (c5_content_hash_short_circuit wEnv wrrA (Module.new widA) wcacheHash wloadRes
      wtrRes (by decide) rfl rfl).1 wcmHash (by decide)⟩

theorem resolve_module_id_log (env : Env) (p : PluginResolveHookParam) :
    (Compiler.resolve_module_id env p).2 = [StageCall.resolveCall] := by
  unfold Compiler.resolve_module_id
  cases h : env.resolveHook p <;> simp [h]

theorem pipelineCalls_append (l1 l2 : List StageCall) :
    pipelineCalls (l1 ++ l2) = pipelineCalls l1 ++ pipelineCalls l2 := by
  simp [pipelineCalls]

/-- The module identity a resolution of these parameters is claimed under:
the pre-known cached dependency id when present, else the identity computed
by `resolve_module_id` (`none` when resolution fails). -/
def resolutionIdentity (env : Env) (params : BuildModuleGraphParams) :
    Option ModuleId :=
  match params.cachedDependency with
  | some cachedId => some cachedId
  | none =>
    match (Compiler.resolve_module_id env params.resolveParam).1 with
    | Except.ok result => some result.moduleId
    | Except.error _ => none

/-- C2: when the resolution's module identity is already in the graph at
claim time, `resolve_module` returns the Built result with the graph and
cache untouched, and `build_module_graph` only adds the connecting edge: the
node list is unchanged, no placeholder is inserted, the pipeline never runs
(no pipeline stage calls are added to the log), no error is reported, and the
cache is unchanged. -/
theorem c2_already_built_dedup (env : Env) (params : BuildModuleGraphParams)
    (st : BuildState) (id : ModuleId) (fuel : Nat)
    (hid : resolutionIdentity env params = some id)
    (hmem : st.graph.has_module id = true) :
    (∃ log, resolve_module env params.resolveParam params.cachedDependency
          st.graph st.cache
        = (Except.ok (ResolveModuleResult.built id, st.graph, st.cache), log)
      ∧ pipelineCalls log = [])
    ∧ ((build_module_graph (fuel + 1) env params st).graph.modules
        = st.graph.modules
      ∧ (build_module_graph (fuel + 1) env params st).errors = st.errors
      ∧ (build_module_graph (fuel + 1) env params st).cache = st.cache
      ∧ pipelineCalls (build_module_graph (fuel + 1) env params st).log
          = pipelineCalls st.log) := by
  obtain ⟨log0, hres, hlog0⟩ :
      ∃ log0, resolve_module env params.resolveParam params.cachedDependency
          st.graph st.cache
        = (Except.ok (ResolveModuleResult.built id, st.graph, st.cache), log0)
        ∧ pipelineCalls log0 = [] := by
    cases hcd : params.cachedDependency with
    | some cachedId =>
        have hcid : cachedId = id := by
          simpa [resolutionIdentity, hcd] using hid
        subst hcid
        refine ⟨[], ?_, rfl⟩
        unfold resolve_module
        simp [hmem]
    | none =>
        rcases hrid : Compiler.resolve_module_id env params.resolveParam with ⟨res0, log0⟩
        cases res0 with
        | error e =>
            exfalso
            simp [resolutionIdentity, hcd, hrid] at hid
        | ok result =>
            have hrm : result.moduleId = id := by
              simpa [resolutionIdentity, hcd, hrid] using hid
            have hlog0 : log0 = [StageCall.resolveCall] := by
              have hl := resolve_module_id_log env params.resolveParam
              rw [hrid] at hl
              exact hl
            refine ⟨log0, ?_, by rw [hlog0]; rfl⟩
            unfold resolve_module
            rw [hrid]
            simp only [hrm, hmem, if_true]
  refine ⟨⟨log0, hres, hlog0⟩, ?_⟩
  cases hedge : Compiler.add_edge params.resolveParam id params.order st.graph with
  | none =>
      have hrun : build_module_graph (fuel + 1) env params st
          = { st with
                graph := st.graph
                cache := st.cache
                log := st.log ++ log0
                panicked := true } := by
        unfold build_module_graph
        rw [hres]
        simp only [hedge]
      rw [hrun]
      exact ⟨rfl, rfl, rfl, by rw [pipelineCalls_append, hlog0, List.append_nil]⟩
  | some g2 =>
      have hrun : build_module_graph (fuel + 1) env params st
          = { st with
                graph := g2
                cache := st.cache
                log := st.log ++ log0 } := by
        unfold build_module_graph
        rw [hres]
        simp only [hedge]
      rw [hrun]
      exact ⟨add_edge_modules params.resolveParam id params.order st.graph g2 hedge,
        rfl, rfl, by rw [pipelineCalls_append, hlog0, List.append_nil]⟩

/-- Concrete build-graph parameters for the Already-Built witness. -/
def wparamsC2 : BuildModuleGraphParams :=
  { resolveParam :=
      { source := "./a.js"
        kind := ResolveKind.staticImport
        importer := none }
    cachedDependency := some widA
    order := 0 }

/-- A build state whose graph already holds `widA`. -/
def wstC2 : BuildState :=
  { graph := ModuleGraph.empty.add_module (Module.new widA)
    cache := []
    errors := []
    log := []
    panicked := false }

theorem c2_already_built_dedup_witness :
    resolutionIdentity wEnv wparamsC2 = some widA
    ∧ wstC2.graph.has_module widA = true
    ∧ (build_module_graph 1 wEnv wparamsC2 wstC2).graph.modules
        = wstC2.graph.modules :=
  ⟨by decide, by decide,
   ((c2_already_built_dedup wEnv wparamsC2 wstC2 widA 0 (by decide) (by decide)).2).1⟩

theorem resolveModuleClaim_spec (env : Env) (p : PluginResolveHookParam)
    (r0 : Option ResolveModuleIdResult) (g : ModuleGraph) (c : CacheStore)
    (res : ResolveModuleResult) (g' : ModuleGraph) (c' : CacheStore)
    (log : List StageCall)
    (h : resolveModuleClaim env p r0 g c = (Except.ok (res, g', c'), log)) :
    ∃ rid, res = ResolveModuleResult.success
        { module := Compiler.create_module rid.moduleId rid.resolveResult.external false
          resolveModuleIdResult := rid }
      ∧ g' = Compiler.insert_dummy_module rid.moduleId g
      ∧ c' = c := by
  cases r0 with
  | some result =>
      simp only [resolveModuleClaim, Prod.mk.injEq, Except.ok.injEq] at h
      exact ⟨result, h.1.1.symm, h.1.2.1.symm, h.1.2.2.symm⟩
  | none =>
      rcases hstep : Compiler.resolve_module_id env p with ⟨res0, log0⟩
      unfold resolveModuleClaim at h
      rw [hstep] at h
      cases res0 with
      | error e => simp at h
      | ok result =>
          simp only [Prod.mk.injEq, Except.ok.injEq] at h
          exact ⟨result, h.1.1.symm, h.1.2.1.symm, h.1.2.2.symm⟩

theorem resolve_module_ok_spec (env : Env) (p : PluginResolveHookParam)
    (cd : Option ModuleId) (g : ModuleGraph) (c : CacheStore)
    (r : ResolveModuleResult) (g' : ModuleGraph) (c' : CacheStore)
    (log : List StageCall)
    (h : resolve_module env p cd g c = (Except.ok (r, g', c'), log)) :
    (∃ mid, r = ResolveModuleResult.built mid ∧ g' = g ∧ c' = c)
    ∨ (∃ rid, r = ResolveModuleResult.success
          { module := Compiler.create_module rid.moduleId rid.resolveResult.external false
            resolveModuleIdResult := rid }
        ∧ g' = Compiler.insert_dummy_module rid.moduleId g) := by
  cases cd with
  | some cid =>
      unfold resolve_module at h
      by_cases hmem : g.has_module cid = true
      · simp only [hmem, if_true, Prod.mk.injEq, Except.ok.injEq] at h
        exact Or.inl ⟨cid, h.1.1.symm, h.1.2.1.symm, h.1.2.2.symm⟩
      · rw [Bool.not_eq_true] at hmem
        simp only [hmem, Bool.false_eq_true, if_false,
          handle_cached_dependency_eq] at h
        rcases hclaim : resolveModuleClaim env p none g
            (if hasCache c cid = true then invalidateCache c cid else c) with
          ⟨resc, logc⟩
        rw [hclaim] at h
        cases resc with
        | error e => simp at h
        | ok trip =>
            obtain ⟨trip1, trip2⟩ := trip
            simp only [Prod.mk.injEq, Except.ok.injEq] at h
            obtain ⟨rid, hres, hg, _⟩ :=
              resolveModuleClaim_spec env p none g _ trip1 trip2.1 trip2.2 logc hclaim
            obtain ⟨⟨he1, he2⟩, _⟩ := h
            refine Or.inr ⟨rid, ?_, ?_⟩
            · rw [← he1, hres]
            · have hg' : g' = trip2.1 := by rw [he2]
              rw [hg', hg]
  | none =>
      rcases hrid : Compiler.resolve_module_id env p with ⟨res0, log0⟩
      unfold resolve_module at h
      rw [hrid] at h
      cases res0 with
      | error e => simp at h
      | ok result =>
          by_cases hmem : g.has_module result.moduleId = true
          · simp only [hmem, if_true, Prod.mk.injEq, Except.ok.injEq] at h
            exact Or.inl ⟨result.moduleId, h.1.1.symm, h.1.2.1.symm, h.1.2.2.symm⟩
          · rw [Bool.not_eq_true] at hmem
            simp only [hmem, Bool.false_eq_true, if_false] at h
            rcases hclaim : resolveModuleClaim env p (some result) g c with ⟨resc, logc⟩
            rw [hclaim] at h
            cases resc with
            | error e => simp at h
            | ok trip =>
                obtain ⟨trip1, trip2⟩ := trip
                simp only [Prod.mk.injEq, Except.ok.injEq] at h
                obtain ⟨rid, hres, hg, _⟩ :=
                  resolveModuleClaim_spec env p (some result) g c trip1 trip2.1
                    trip2.2 logc hclaim
                obtain ⟨⟨he1, he2⟩, _⟩ := h
                refine Or.inr ⟨rid, ?_, ?_⟩
                · rw [← he1, hres]
                · have hg' : g' = trip2.1 := by rw [he2]
                  rw [hg', hg]

theorem resolve_module_mono (env : Env) (p : PluginResolveHookParam)
    (cd : Option ModuleId) (g : ModuleGraph) (c : CacheStore)
    (r : ResolveModuleResult) (g' : ModuleGraph) (c' : CacheStore)
    (log : List StageCall)
    (h : resolve_module env p cd g c = (Except.ok (r, g', c'), log))
    (id : ModuleId) (hm : g.has_module id = true) :
    g'.has_module id = true := by
  rcases resolve_module_ok_spec env p cd g c r g' c' log h with
    ⟨mid, _, hg, _⟩ | ⟨rid, _, hg⟩
  · rw [hg]; exact hm
  · rw [hg]; exact has_module_insert_dummy rid.moduleId g id hm

theorem resolve_module_success_has (env : Env) (p : PluginResolveHookParam)
    (cd : Option ModuleId) (g : ModuleGraph) (c : CacheStore)
    (info : ResolvedModuleInfo) (g' : ModuleGraph) (c' : CacheStore)
    (log : List StageCall)
    (h : resolve_module env p cd g c
        = (Except.ok (ResolveModuleResult.success info, g', c'), log)) :
    g'.has_module info.module.id = true := by
  rcases resolve_module_ok_spec env p cd g c _ g' c' log h with
    ⟨mid, habs, _, _⟩ | ⟨rid, hres, hg⟩
  · cases habs
  · injection hres with h1
    subst h1
    rw [hg]
    simp only [create_module_id]
    exact has_module_insert_dummy_self rid.moduleId g

theorem has_module_foldl
    (recurse : BuildModuleGraphParams → BuildState → BuildState)
    (id : ModuleId)
    (hrec : ∀ p st, st.graph.has_module id = true →
        ((recurse p st).graph.has_module id) = true)
    (l : List BuildModuleGraphParams) (st : BuildState)
    (h : st.graph.has_module id = true) :
    ((l.foldl (fun acc p => recurse p acc) st).graph.has_module id) = true := by
  induction l generalizing st with
  | nil => simpa using h
  | cons p rest ih => exact ih _ (hrec p st h)

theorem has_module_handleDependenciesWith
    (recurse : BuildModuleGraphParams → BuildState → BuildState)
    (id : ModuleId)
    (hrec : ∀ p st, st.graph.has_module id = true →
        ((recurse p st).graph.has_module id) = true)
    (params : HandleDependenciesParams) (st : BuildState)
    (h : st.graph.has_module id = true) :
    ((handleDependenciesWith recurse params st).graph.has_module id) = true := by
  unfold handleDependenciesWith
  have h1 : (Compiler.add_module params.module params.resolveParam.kind
      st.graph).has_module id = true :=
    has_module_compiler_add_module _ _ _ _ h
  cases hedge : Compiler.add_edge params.resolveParam params.module.id params.order
      (Compiler.add_module params.module params.resolveParam.kind st.graph) with
  | none =>
      simp only [hedge]
      exact h1
  | some g2 =>
      have h2 : g2.has_module id = true := by
        unfold ModuleGraph.has_module at h1 ⊢
        rw [add_edge_modules _ _ _ _ _ hedge]
        exact h1
      simp only [hedge]
      exact has_module_foldl recurse id hrec _ _ h2

theorem has_module_build_module_graph (fuel : Nat) (env : Env)
    (params : BuildModuleGraphParams) (st : BuildState) (id : ModuleId)
    (h : st.graph.has_module id = true) :
    ((build_module_graph fuel env params st).graph.has_module id) = true := by
  induction fuel generalizing params st with
  | zero => simpa [build_module_graph] using h
  | succ n ih =>
      unfold build_module_graph
      rcases hres : resolve_module env params.resolveParam params.cachedDependency
          st.graph st.cache with ⟨res, log⟩
      cases res with
      | error e =>
          simpa using h
      | ok trip =>
          obtain ⟨r, g', c'⟩ := trip
          have hg' : g'.has_module id = true :=
            resolve_module_mono env params.resolveParam params.cachedDependency
              st.graph st.cache r g' c' log hres id h
          cases r with
          | built mid =>
              cases hedge : Compiler.add_edge params.resolveParam mid params.order g' with
              | none => simpa [hedge] using hg'
              | some g2 =>
                  simp only [hedge]
                  unfold ModuleGraph.has_module at hg' ⊢
                  rw [add_edge_modules _ _ _ _ _ hedge]
                  exact hg'
          | success info =>
              by_cases hext : info.resolveModuleIdResult.resolveResult.external = true
              · simp only [hext, if_true]
                have h1 : (Compiler.add_module info.module params.resolveParam.kind
                    g').has_module id = true :=
                  has_module_compiler_add_module _ _ _ _ hg'
                cases hedge : Compiler.add_edge params.resolveParam info.module.id
                    params.order (Compiler.add_module info.module
                      params.resolveParam.kind g') with
                | none => simpa [hedge] using h1
                | some g2 =>
                    simp only [hedge]
                    unfold ModuleGraph.has_module at h1 ⊢
                    rw [add_edge_modules _ _ _ _ _ hedge]
                    exact h1
              · rw [Bool.not_eq_true] at hext
                simp only [hext, Bool.false_eq_true, if_false]
                rcases hbm : Compiler.build_module env
                    info.resolveModuleIdResult.resolveResult info.module c' with
                  ⟨bres, log2⟩
                cases bres with
                | error e => simpa using hg'
                | ok pair =>
                    obtain ⟨module, deps⟩ := pair
                    exact has_module_handleDependenciesWith _ id
                      (fun p2 st2 h2 => ih p2 st2 h2) _ _ hg'
          | cached mid =>
              exact has_module_handleDependenciesWith _ id
                (fun p2 st2 h2 => ih p2 st2 h2) _ _
                (by simpa using hg')

/-- C10: the placeholder inserted at claim time is the bare module record
(`Module::new` via `create_module(id, false, false)`), with `external = false`
and `immutable = false`; no operation of the builder removes a node
(`build_module_graph` preserves graph membership at every fuel); and after
any fresh claim (`Success` resolution) the claimed module id is in the final
graph — in particular it persists when the build pipeline for it fails. -/
theorem c10_placeholder_persists (id : ModuleId) (g : ModuleGraph) :
    (Compiler.insert_dummy_module id g = g.add_module (Module.new id)
      ∧ (Module.new id).external = false
      ∧ (Module.new id).immutable = false)
    ∧ (∀ (fuel : Nat) (env : Env) (params : BuildModuleGraphParams)
        (st : BuildState) (mid : ModuleId), st.graph.has_module mid = true →
        ((build_module_graph fuel env params st).graph.has_module mid) = true)
    ∧ (∀ (fuel : Nat) (env : Env) (params : BuildModuleGraphParams)
        (st : BuildState) (info : ResolvedModuleInfo) (g' : ModuleGraph)
        (c' : CacheStore) (log : List StageCall),
        resolve_module env params.resolveParam params.cachedDependency
            st.graph st.cache
          = (Except.ok (ResolveModuleResult.success info, g', c'), log) →
        ((build_module_graph (fuel + 1) env params st).graph.has_module
            info.module.id) = true) := by
  refine ⟨⟨?_, rfl, rfl⟩, has_module_build_module_graph, ?_⟩
  · unfold Compiler.insert_dummy_module
    rw [create_module_false_false]
  · intro fuel env params st info g' c' log hres
    have hg' : g'.has_module info.module.id = true :=
      resolve_module_success_has env params.resolveParam params.cachedDependency
        st.graph st.cache info g' c' log hres
    unfold build_module_graph
    rw [hres]
    by_cases hext : info.resolveModuleIdResult.resolveResult.external = true
    · simp only [hext, if_true]
      have h1 := has_module_compiler_add_module info.module
        params.resolveParam.kind g' info.module.id hg'
      cases hedge : Compiler.add_edge params.resolveParam info.module.id
          params.order (Compiler.add_module info.module
            params.resolveParam.kind g') with
      | none => simpa [hedge] using h1
      | some g2 =>
          simp only [hedge]
          unfold ModuleGraph.has_module at h1 ⊢
          rw [add_edge_modules _ _ _ _ _ hedge]
          exact h1
    · rw [Bool.not_eq_true] at hext
      simp only [hext, Bool.false_eq_true, if_false]
      rcases hbm : Compiler.build_module env
          info.resolveModuleIdResult.resolveResult info.module c' with ⟨bres, log2⟩
      cases bres with
      | error e => simpa using hg'
      | ok pair =>
          obtain ⟨module, deps⟩ := pair
          exact has_module_handleDependenciesWith _ info.module.id
            (fun p2 st2 h2 => has_module_build_module_graph fuel env p2 st2 _ h2)
            _ _ hg'

theorem c10_placeholder_persists_witness :
    wstC2.graph.has_module widA = true
    ∧ (build_module_graph 1 wEnv wparamsC2 wstC2).graph.has_module widA = true :=
  ⟨by decide,
   (c10_placeholder_persists widA ModuleGraph.empty).2.1 1 wEnv wparamsC2 wstC2
     widA (by decide)⟩

/-- Environment for the partial-failure scenario: loading `broken.js` fails,
everything else succeeds. -/
def wEnvC7 : Env :=
  { wEnv with
      loadHook := fun p =>
        if p.resolvedPath = "broken.js" then
          Except.error (CompilationError.loadError p.resolvedPath)
        else
          Except.ok { content := "content:" ++ p.resolvedPath, moduleType := "js",
                      sourceMap := none } }

/-- The entry module of the partial-failure scenario. -/
def wmainModule : Module :=
  { Module.new (ModuleId.new "main.js" "") with moduleType := "js" }

/-- Fan-out parameters: entry `main` importing `./ok.js` then `./broken.js`. -/
def wparamsC7 : HandleDependenciesParams :=
  { module := wmainModule
    resolveParam :=
      { source := "./main.js"
        kind := ResolveKind.entry "main"
        importer := none }
    order := 0
    deps := [({ source := "./ok.js", kind := ResolveKind.staticImport }, none),
             ({ source := "./broken.js", kind := ResolveKind.staticImport }, none)] }

/-- The ok.js identity. -/
def widOk : ModuleId := ModuleId.new "ok.js" ""

/-- The fully built ok.js module of the scenario. -/
def wbuiltOk : Module :=
  { id := widOk
    content := "content:ok.js"
    contentHash := "hash:content:ok.js"
    lastUpdateTimestamp := 7
    moduleType := "js"
    size := 13
    external := false
    immutable := false
    sideEffects := false
    sourceMapChain := []
    meta := "meta" }

/-- C7: a resolution error or a build-pipeline error of one module task is
forwarded to the error channel and terminates only that task:
`build_module_graph` returns normally with the error appended and performs no
dependency fan-out for the failed module (the state shows no further
effects); in the concrete scenario where entry `main` imports `ok.js` and
`broken.js` (whose load fails), `ok.js` is fully built with its edge
recorded, exactly one error is collected for `broken.js`, and the build does
not abort. -/
theorem c7_partial_failure_isolation :
    (∀ (fuel : Nat) (env : Env) (params : BuildModuleGraphParams)
        (st : BuildState) (e : CompilationError) (log : List StageCall),
        resolve_module env params.resolveParam params.cachedDependency
            st.graph st.cache = (Except.error e, log) →
        build_module_graph (fuel + 1) env params st
          = { st with errors := st.errors ++ [e], log := st.log ++ log })
    ∧ (∀ (fuel : Nat) (env : Env) (params : BuildModuleGraphParams)
        (st : BuildState) (info : ResolvedModuleInfo) (g' : ModuleGraph)
        (c' : CacheStore) (log log2 : List StageCall) (e : CompilationError),
        resolve_module env params.resolveParam params.cachedDependency
            st.graph st.cache
          = (Except.ok (ResolveModuleResult.success info, g', c'), log) →
        info.resolveModuleIdResult.resolveResult.external = false →
        Compiler.build_module env info.resolveModuleIdResult.resolveResult
            info.module c' = (Except.error e, log2) →
        build_module_graph (fuel + 1) env params st
          = { st with
                graph := g'
                cache := c'
                errors := st.errors ++ [e]
                log := (st.log ++ log) ++ log2 })
    ∧ ((handle_dependencies 2 wEnvC7 wparamsC7 (BuildState.init [])).errors
        = [CompilationError.loadError "broken.js"]
      ∧ (handle_dependencies 2 wEnvC7 wparamsC7 (BuildState.init [])).graph.get widOk
          = some wbuiltOk
      ∧ (handle_dependencies 2 wEnvC7 wparamsC7
          (BuildState.init [])).graph.edgeItems wmainModule.id widOk
          = [{ source := "./ok.js", kind := ResolveKind.staticImport, order := 0 }]
      ∧ (handle_dependencies 2 wEnvC7 wparamsC7 (BuildState.init [])).panicked
          = false) := by
  refine ⟨?_, ?_, by decide, by decide, by decide, by decide⟩
  · intro fuel env params st e log hres
    unfold build_module_graph
    rw [hres]
  · intro fuel env params st info g' c' log log2 e hres hext hbm
    unfold build_module_graph
    rw [hres]
    simp only [hext, Bool.false_eq_true, if_false, hbm]

/-- Environment whose resolver always fails. -/
def wEnvBad : Env :=
  { wEnv with
      resolveHook := fun _ =>
        Except.error (CompilationError.genericError "no resolver") }

/-- Parameters hitting the failing resolver. -/
def wparamsBad : BuildModuleGraphParams :=
  { resolveParam :=
      { source := "./bad.js"
        kind := ResolveKind.staticImport
        importer := none }
    cachedDependency := none
    order := 0 }

theorem c7_partial_failure_isolation_witness :
    resolve_module wEnvBad wparamsBad.resolveParam wparamsBad.cachedDependency
        (BuildState.init []).graph (BuildState.init []).cache
      = (Except.error (CompilationError.genericError "Failed to resolve module id"),
         [StageCall.resolveCall])
    ∧ build_module_graph 1 wEnvBad wparamsBad (BuildState.init [])
        = { BuildState.init [] with
              errors := (BuildState.init []).errors
                ++ [CompilationError.genericError "Failed to resolve module id"]
              log := (BuildState.init []).log ++ [StageCall.resolveCall] } :=
  ⟨rfl,
   (c7_partial_failure_isolation).1 0 wEnvBad wparamsBad (BuildState.init [])
     (CompilationError.genericError "Failed to resolve module id")
     [StageCall.resolveCall] rfl⟩

theorem countModules_eq_zero (g : ModuleGraph) (id : ModuleId)
    (h : g.has_module id = false) : g.countModules id = 0 := by
  unfold ModuleGraph.countModules
  rw [List.length_eq_zero, List.filter_eq_nil_iff]
  intro m hm
  unfold ModuleGraph.has_module at h
  rw [List.any_eq_false] at h
  simp [h m hm]

theorem countModules_insert_dummy (g : ModuleGraph) (id : ModuleId) :
    (Compiler.insert_dummy_module id g).countModules id
      = g.countModules id + 1 := by
  unfold Compiler.insert_dummy_module ModuleGraph.countModules ModuleGraph.add_module
  rw [List.filter_append, List.length_append]
  simp [create_module_id]

/-- C3: the membership check and the placeholder insertion of
`resolve_module` are a single atomic action on the shared graph (one
exclusive-lock acquisition in the source), so an interleaving of two racing
resolutions of the same identity is one of the two sequential orders of that
atomic claim step; in either order (the statement covers both by symmetry in
the two resolve parameters) the first racer gets the fresh `success` claim —
inserting the placeholder exactly once and being the only one to proceed to
the build pipeline — and the second observes `built`, leaving the graph
unchanged: the module appears exactly once as a node. -/
theorem c3_claim_atomicity_dedup (env : Env) (p1 p2 : PluginResolveHookParam)
    (g : ModuleGraph) (cache : CacheStore) (r1 r2 : ResolveModuleIdResult)
    (id : ModuleId) (log1 log2 : List StageCall)
    (hres1 : Compiler.resolve_module_id env p1 = (Except.ok r1, log1))
    (hres2 : Compiler.resolve_module_id env p2 = (Except.ok r2, log2))
    (hid1 : r1.moduleId = id) (hid2 : r2.moduleId = id)
    (hmem : g.has_module id = false) :
    resolve_module env p1 none g cache
      = (Except.ok (ResolveModuleResult.success
          { module := Compiler.create_module id r1.resolveResult.external false
            resolveModuleIdResult := r1 },
          Compiler.insert_dummy_module id g, cache), log1)
    ∧ resolve_module env p2 none (Compiler.insert_dummy_module id g) cache
      = (Except.ok (ResolveModuleResult.built id,
          Compiler.insert_dummy_module id g, cache), log2)
    ∧ (Compiler.insert_dummy_module id g).countModules id = 1
    ∧ g.countModules id = 0 := by
  subst hid1
  refine ⟨?_, ?_, ?_, countModules_eq_zero g _ hmem⟩
  · unfold resolve_module
    rw [hres1]
    simp only [hmem, Bool.false_eq_true, if_false]
    unfold resolveModuleClaim
    simp
  · unfold resolve_module
    rw [hres2]
    simp only [hid2, has_module_insert_dummy_self, if_true]
  · rw [countModules_insert_dummy, countModules_eq_zero g _ hmem]

/-- The d.js identity reached from two racing importers in the witness. -/
def widD : ModuleId := ModuleId.new "d.js" ""

/-- Identity-resolution result for `./d.js` under `wEnv`. -/
def wrD : ResolveModuleIdResult :=
  { moduleId := widD
    resolveResult :=
      { resolvedPath := "d.js"
        query := []
        external := false
        sideEffects := false
        meta := "" } }

/-- First racing resolve parameter (importer b.js). -/
def wp1 : PluginResolveHookParam :=
  { source := "./d.js"
    kind := ResolveKind.staticImport
    importer := some (ModuleId.new "b.js" "") }

/-- Second racing resolve parameter (importer c.js). -/
def wp2 : PluginResolveHookParam :=
  { source := "./d.js"
    kind := ResolveKind.staticImport
    importer := some (ModuleId.new "c.js" "") }

theorem c3_claim_atomicity_dedup_witness :
    ModuleGraph.empty.has_module widD = false
    ∧ (Compiler.insert_dummy_module widD ModuleGraph.empty).countModules widD = 1 :=
  ⟨by decide,
   (c3_claim_atomicity_dedup wEnv wp1 wp2 ModuleGraph.empty [] wrD wrD widD
      [StageCall.resolveCall] [StageCall.resolveCall] rfl rfl rfl rfl
      (by decide)).2.2.1⟩

/-- The dependency list carried by a pipeline result (`[]` for errors). -/
def okDeps
    (r : Except CompilationError (Module × List PluginAnalyzeDepsHookResultEntry)) :
    List PluginAnalyzeDepsHookResultEntry :=
  match r with
  | Except.ok res => res.2
  | Except.error _ => []

theorem build_module_after_transform_deps (env : Env)
    (rr : PluginResolveHookResult) (lmt : String)
    (tr : PluginDriverTransformHookResult) (m : Module)
    (res : Module × List PluginAnalyzeDepsHookResultEntry) (log : List StageCall)
    (h : Compiler.build_module_after_transform env rr lmt tr m
        = (Except.ok res, log)) :
    res.2 = [] := by
  unfold Compiler.build_module_after_transform at h
  simp only [] at h
  split at h
  · simp at h
  · split at h
    · simp at h
    · simp only [Prod.mk.injEq, Except.ok.injEq] at h
      rw [← h.1]

/-- Entry parameters for the end-to-end scenario of the spec (`index.js`
as entry `main`). -/
def wparamsC1 : BuildModuleGraphParams :=
  { resolveParam :=
      { source := "./index.js"
        kind := ResolveKind.entry "main"
        importer := none }
    cachedDependency := none
    order := 0 }

/-- C1 (refuting the claim as stated): `build_module_after_transform` returns
an empty dependency list unconditionally — whatever imports the parse/process
stage declares are never surfaced — so in the end-to-end scenario (entry
`index.js`, with collaborators that complete every stage) the finished graph
holds exactly one node and no edges instead of the four nodes and four edges
the claim requires. -/
theorem c1_dependency_descriptors_always_empty :
    (∀ (env : Env) (rr : PluginResolveHookResult) (lmt : String)
        (tr : PluginDriverTransformHookResult) (m : Module),
        okDeps (Compiler.build_module_after_transform env rr lmt tr m).1 = [])
    ∧ (build_module_graph 5 wEnv wparamsC1 (BuildState.init [])).graph.modules.length
        = 1
    ∧ (build_module_graph 5 wEnv wparamsC1 (BuildState.init [])).graph.edges = []
    ∧ (build_module_graph 5 wEnv wparamsC1 (BuildState.init [])).errors = [] := by
  refine ⟨?_, by decide, by decide, by decide⟩
  intro env rr lmt tr m
  rcases hbat : Compiler.build_module_after_transform env rr lmt tr m with ⟨res, log⟩
  cases res with
  | error e => rfl
  | ok pair =>
      have := build_module_after_transform_deps env rr lmt tr m pair log hbat
      simpa [okDeps] using this

theorem c9_add_edge_endpoint_safety_witness :
    ({ source := "./a.js", kind := ResolveKind.staticImport,
       importer := none } : PluginResolveHookParam).importer = none
    ∧ Compiler.add_edge
        { source := "./a.js", kind := ResolveKind.staticImport, importer := none }
        widA 0 ModuleGraph.empty = some ModuleGraph.empty :=
  ⟨rfl,
   (c9_add_edge_endpoint_safety
      { source := "./a.js", kind := ResolveKind.staticImport, importer := none }
      widA 0 ModuleGraph.empty).1 rfl⟩

end ToyFarm
